import Mathlib

/-!
Verification of the MCP server in `src/index.ts`.

The handlers are embedded shallowly: pure handlers become Lean functions;
the current-time handler is parameterized over a clock/timezone environment
modelling `Intl.DateTimeFormat`; the generate-image handler is parameterized
over the outbound Hugging Face API call. JavaScript numbers are modelled as
exact rationals (`Rat`).
-/

namespace McpServer

/-- A JSON-like scalar value, as produced in `structuredContent`. -/
inductive JsonVal where
  | str (s : String)
  | num (q : Rat)
deriving DecidableEq, Repr

/-- The JSON type of a scalar value; used to compare structured output
against a declared `outputSchema`. -/
inductive JsonTy where
  | str
  | num
deriving DecidableEq, Repr

def JsonVal.ty : JsonVal → JsonTy
  | .str _ => .str
  | .num _ => .num

/-- The shape (field names and types, in order) of a structured output. -/
def shapeOf (o : List (String × JsonVal)) : List (String × JsonTy) :=
  o.map (fun p => (p.1, p.2.ty))

/-- Annotations attached to a content item (`audience`, `priority`). -/
structure Annots where
  audience : List String
  priority : Rat
deriving DecidableEq, Repr

/-- One item of a tool result's `content` array. -/
inductive ContentItem where
  | text (t : String)
  | image (data : String) (mimeType : String) (annots : Annots)
deriving DecidableEq, Repr

/-- The value a tool handler returns: `content` items, optional
`structuredContent`, and the `isError` flag (absent means `false`). -/
structure ToolResult where
  content : List ContentItem
  structuredContent : Option (List (String × JsonVal)) := none
  isError : Bool := false
deriving DecidableEq, Repr

/-! ## greeting tool -/

/-- The fixed greeting table `greetings` from `src/index.ts`. -/
def greetings : List (String × String) :=
  [("korean", "안녕하세요"),
   ("english", "Hello"),
   ("japanese", "こんにちは"),
   ("chinese", "你好"),
   ("spanish", "Hola"),
   ("french", "Bonjour"),
   ("german", "Hallo"),
   ("italian", "Ciao"),
   ("portuguese", "Olá"),
   ("russian", "Привет")]

/-- JavaScript `a || b` on strings: `b` when `a` is `undefined` or the
empty string (falsy), otherwise the string held by `a`. -/
def jsOrElse (a : Option String) (b : String) : String :=
  match a with
  | some s => if s = "" then b else s
  | none => b

/-- Declared `outputSchema` of the greeting tool. -/
def greetingOutputSchema : List (String × JsonTy) := [("greeting", .str)]

/-- JavaScript `toLowerCase()`, character by character; exact on the basic
latin range, which covers every key of the greeting table. -/
def jsToLowerCase (s : String) : String := String.mk (s.data.map Char.toLower)

/-- The inherited members of `Object.prototype` that a property read on a
plain object literal reaches through the prototype chain, paired with the
template-string coercion of each inherited value (Node/V8 rendering). All
of these values are functions or objects, hence truthy. -/
def objectProtoProps : List (String × String) :=
  [("constructor", "function Object() \x7b [native code] \x7d"),
   ("__defineGetter__", "function __defineGetter__() \x7b [native code] \x7d"),
   ("__defineSetter__", "function __defineSetter__() \x7b [native code] \x7d"),
   ("hasOwnProperty", "function hasOwnProperty() \x7b [native code] \x7d"),
   ("__lookupGetter__", "function __lookupGetter__() \x7b [native code] \x7d"),
   ("__lookupSetter__", "function __lookupSetter__() \x7b [native code] \x7d"),
   ("isPrototypeOf", "function isPrototypeOf() \x7b [native code] \x7d"),
   ("propertyIsEnumerable", "function propertyIsEnumerable() \x7b [native code] \x7d"),
   ("toString", "function toString() \x7b [native code] \x7d"),
   ("valueOf", "function valueOf() \x7b [native code] \x7d"),
   ("__proto__", "[object Object]"),
   ("toLocaleString", "function toLocaleString() \x7b [native code] \x7d")]

/-- JavaScript property read `obj[key]` on an object literal: the own
property when present, otherwise the inherited `Object.prototype` member
(represented by its string coercion), otherwise `undefined`. -/
def jsObjectGet (own : List (String × String)) (key : String) : Option String :=
  match own.lookup key with
  | some v => some v
  | none => objectProtoProps.lookup key

/-- The greeting tool handler. `greetings[lang]` is a JavaScript property
read, so names of inherited `Object.prototype` members hit truthy values
and bypass the `||` fallback. -/
def greetingHandler (name language : String) : ToolResult :=
  let lang := jsToLowerCase language
  let greetingWord := jsOrElse (jsObjectGet greetings lang) (jsOrElse (jsObjectGet greetings "english") "")
  let message := greetingWord ++ ", " ++ name ++ "!"
  { content := [.text message],
    structuredContent := some [("greeting", .str message)] }

/-! ## calc tool -/

/-- The `operator` argument: `z.enum(['+', '-', '*', '/'])`. -/
inductive Operator where
  | plus
  | minus
  | times
  | div
deriving DecidableEq, Repr

/-- The operator's surface syntax, used in the result message. -/
def Operator.symbol : Operator → String
  | .plus => "+"
  | .minus => "-"
  | .times => "*"
  | .div => "/"

/-- Rendering of a number into the result message. Models JavaScript
number-to-string interpolation; exact on integer values. -/
def numToString (q : Rat) : String :=
  if q.den = 1 then toString q.num else toString q

/-- Declared `outputSchema` of the calc tool. -/
def calcOutputSchema : List (String × JsonTy) := [("result", .num)]

/-- The value the calc handler's `switch` assigns to `result`. -/
def switchResult (num1 num2 : Rat) : Operator → Rat
  | .plus => num1 + num2
  | .minus => num1 - num2
  | .times => num1 * num2
  | .div => num1 / num2

/-- Success result of the calc tool for a computed `result`. -/
def calcSuccess (num1 num2 : Rat) (operator : Operator) (result : Rat) : ToolResult :=
  let message := numToString num1 ++ " " ++ operator.symbol ++ " " ++ numToString num2
    ++ " = " ++ numToString result
  { content := [.text message],
    structuredContent := some [("result", .num result)] }

/-- The calc tool handler. -/
def calcHandler (num1 num2 : Rat) (operator : Operator) : ToolResult :=
  match operator with
  | .plus => calcSuccess num1 num2 operator (num1 + num2)
  | .minus => calcSuccess num1 num2 operator (num1 - num2)
  | .times => calcSuccess num1 num2 operator (num1 * num2)
  | .div =>
    if num2 = 0 then
      { content := [.text "오류: 0으로 나눌 수 없습니다"], isError := true }
    else
      calcSuccess num1 num2 operator (num1 / num2)

/-! ## code_review prompt -/

/-- One message of a prompt result. -/
structure PromptMessage where
  role : String
  text : String
deriving DecidableEq, Repr

/-- The fixed part of the review template before `${langInfo}`. -/
def codeReviewHead : String :=
  "다음 코드를 리뷰해주세요. 아래 항목들을 중점적으로 검토해주세요:\n\n" ++
  "1. 🐛 **버그 및 오류**: 잠재적인 버그나 런타임 오류가 있는지 확인\n" ++
  "2. 🔒 **보안 취약점**: 보안 관련 문제점이 있는지 검토\n" ++
  "3. ⚡ **성능 최적화**: 성능을 개선할 수 있는 부분 제안\n" ++
  "4. 📖 **가독성**: 코드의 가독성과 유지보수성 평가\n" ++
  "5. 🏗️ **설계 패턴**: 더 나은 설계 패턴이나 구조 제안\n" ++
  "6. ✅ **베스트 프랙티스**: 해당 언어의 모범 사례 준수 여부\n\n"

/-- The fixed part between `${langInfo}` and `${code}`. -/
def codeReviewMid : String := "리뷰할 코드:\n```\n"

/-- The fixed part after `${code}`. -/
def codeReviewTail : String :=
  "\n```\n\n각 항목에 대해 구체적인 피드백과 개선 제안을 해주세요."

/-- The language sentence, `language ? ... : ''`: JavaScript truthiness,
so an absent or empty language yields the empty string. -/
def langInfoOf (language : Option String) : String :=
  match language with
  | some l => if l = "" then "" else "이 코드는 " ++ l ++ "로 작성되었습니다.\n\n"
  | none => ""

/-- The code_review prompt handler. -/
def codeReviewHandler (code : String) (language : Option String) : List PromptMessage :=
  [{ role := "user",
     text := codeReviewHead ++ langInfoOf language ++ codeReviewMid ++ code ++ codeReviewTail }]

/-! ## server-info resource -/

/-- One element of a resource result's `contents` array. -/
structure ResourceContent where
  uri : String
  mimeType : String
  text : String
deriving DecidableEq, Repr

/-- `JSON.stringify(serverInfo, null, 2)` of the hardcoded `serverInfo`
object. -/
def serverInfoJson : String :=
  "\x7b\n" ++
  "  \"name\": \"My MCP Server\",\n" ++
  "  \"version\": \"1.0.0\",\n" ++
  "  \"status\": \"running\",\n" ++
  "  \"uptime\": \"72 hours 35 minutes\",\n" ++
  "  \"cpu_usage\": \"23.5%\",\n" ++
  "  \"memory_usage\": \"1.2GB / 8GB\",\n" ++
  "  \"disk_usage\": \"45.2GB / 256GB\",\n" ++
  "  \"active_connections\": 142,\n" ++
  "  \"requests_per_minute\": 1250,\n" ++
  "  \"environment\": \"production\",\n" ++
  "  \"region\": \"ap-northeast-2\",\n" ++
  "  \"last_restart\": \"2025-11-24T10:30:00Z\",\n" ++
  "  \"health_check\": \"healthy\"\n" ++
  "\x7d"

/-- The server-info resource handler: echoes the request URI and returns
the hardcoded JSON document. -/
def serverInfoHandler (uriHref : String) : List ResourceContent :=
  [{ uri := uriHref, mimeType := "application/json", text := serverInfoJson }]

/-! ## current-time tool -/

/-- The civil date-time fields `Intl.DateTimeFormat` extracts for the
current instant in a given zone. -/
structure DateTimeFields where
  year : Nat
  month : Nat
  day : Nat
  hour : Nat
  minute : Nat
  second : Nat
deriving DecidableEq, Repr

/-- The environment of the current-time handler: for each timezone string,
either the local civil fields of the current instant (`some`), or `none`
when `Intl.DateTimeFormat` rejects the identifier as invalid and throws. -/
structure ClockEnv where
  tzdb : String → Option DateTimeFields

/-- Two-digit field rendering (`2-digit` in the format options). -/
def pad2 (n : Nat) : String :=
  if n < 10 then "0" ++ toString n else toString n

/-- `ko-KR` date rendering: `"YYYY. MM. DD."`. -/
def formatDate (f : DateTimeFields) : String :=
  toString f.year ++ ". " ++ pad2 f.month ++ ". " ++ pad2 f.day ++ "."

/-- `ko-KR` 24-hour time rendering: `"HH:MM:SS"`. -/
def formatTime (f : DateTimeFields) : String :=
  pad2 f.hour ++ ":" ++ pad2 f.minute ++ ":" ++ pad2 f.second

/-- `ko-KR` combined date-time rendering. -/
def formatDateTime (f : DateTimeFields) : String :=
  formatDate f ++ " " ++ formatTime f

/-- Declared `outputSchema` of the current-time tool. -/
def currentTimeOutputSchema : List (String × JsonTy) :=
  [("timezone", .str), ("datetime", .str), ("date", .str), ("time", .str)]

/-- The current-time tool handler. The `try`/`catch` of the source maps to
the two branches of the environment lookup: a recognized timezone formats
the current instant, an invalid one yields the error result. -/
def currentTimeHandler (env : ClockEnv) (timezone : String) : ToolResult :=
  match env.tzdb timezone with
  | some f =>
    let datetime := formatDateTime f
    let date := formatDate f
    let time := formatTime f
    let message := "🕐 " ++ timezone ++ " 현재 시간: " ++ datetime
    { content := [.text message],
      structuredContent := some
        [("timezone", .str timezone), ("datetime", .str datetime),
         ("date", .str date), ("time", .str time)] }
  | none =>
    { content := [.text ("오류: 유효하지 않은 타임존입니다 - " ++ timezone)],
      isError := true }

/-! ## generate-image tool -/

/-- The argument object of `hfClient.textToImage`, together with the
credential the `InferenceClient` was constructed with. -/
structure HFRequest where
  token : String
  provider : String
  model : String
  inputs : String
  num : Nat
deriving DecidableEq, Repr

/-- The request the handler issues for a given credential and prompt. -/
def mkHFRequest (hfToken prompt : String) : HFRequest :=
  { token := hfToken,
    provider := "auto",
    model := "black-forest-labs/FLUX.1-schnell",
    inputs := prompt,
    num := 5 }

/-- The outcome of the one outbound call: the response's bytes on success,
or the thrown value on failure — `some msg` for an `Error` with message
`msg`, `none` for a non-`Error` throw. -/
def ApiCall : Type := HFRequest → Except (Option String) (List Nat)

/-- The base64 alphabet. -/
def base64Chars : List Char :=
  "ABCDEFGHIJKLMNOPQRSTUVWXYZabcdefghijklmnopqrstuvwxyz0123456789+/".toList

def b64Char (n : Nat) : Char := base64Chars.getD n 'A'

/-- Standard base64 encoding of a byte list (`Buffer.toString('base64')`). -/
def base64Encode : List Nat → String
  | [] => ""
  | [b1] =>
    String.mk [b64Char (b1 / 4), b64Char (b1 % 4 * 16)] ++ "=="
  | [b1, b2] =>
    String.mk [b64Char (b1 / 4), b64Char (b1 % 4 * 16 + b2 / 16),
               b64Char (b2 % 16 * 4)] ++ "="
  | b1 :: b2 :: b3 :: rest =>
    String.mk [b64Char (b1 / 4), b64Char (b1 % 4 * 16 + b2 / 16),
               b64Char (b2 % 16 * 4 + b3 / 64), b64Char (b3 % 64)] ++
    base64Encode rest

/-- The generate-image tool handler: one outbound call; on success a single
base64-encoded image content item, on failure an error result carrying the
thrown message. -/
def generateImageHandler (api : ApiCall) (hfToken prompt : String) : ToolResult :=
  match api (mkHFRequest hfToken prompt) with
  | .ok bytes =>
    { content := [.image (base64Encode bytes) "image/png"
        { audience := ["user"], priority := 9/10 }] }
  | .error thrown =>
    let errorMessage := thrown.getD "알 수 없는 오류"
    { content := [.text ("이미지 생성 오류: " ++ errorMessage)], isError := true }

/-! ## concrete sample environments, used to instantiate theorems -/

/-- A clock environment recognizing only `UTC`, at a fixed instant. -/
def utcOnlyEnv : ClockEnv :=
  ⟨fun s => if s = "UTC" then some ⟨2025, 11, 24, 10, 30, 0⟩ else none⟩

/-- A sample outbound API that always fails with an `Error`. -/
def failingApi : ApiCall := fun _ => .error (some "network down")

/-- A sample outbound API that always succeeds with three bytes. -/
def okApi : ApiCall := fun _ => .ok [1, 2, 3]

/-! ## helper lemmas -/

/-- Every value in the greeting table is a non-empty string, so the
JavaScript falsy fallback never fires on a successful lookup. -/
theorem greetings_lookup_ne_empty (l w : String)
    (h : greetings.lookup l = some w) : w ≠ "" := by
  simp only [greetings, List.lookup] at h
  repeat' split at h
  all_goals (try exact Option.noConfusion h)
  all_goals (injection h with h; subst h; decide)

/-- Every inherited `Object.prototype` coercion is a non-empty string (the
inherited values are truthy, so the `||` fallback never fires on them). -/
theorem protoProps_lookup_ne_empty (l w : String)
    (h : objectProtoProps.lookup l = some w) : w ≠ "" := by
  simp only [objectProtoProps, List.lookup] at h
  repeat' split at h
  all_goals (try exact Option.noConfusion h)
  all_goals (injection h with h; subst h; decide)

/-- A string of positive length is not the empty string. -/
theorem ne_empty_of_length_pos {s : String} (h : 0 < s.length) : s ≠ "" := by
  intro he
  rw [he] at h
  simp at h

theorem formatTime_ne_empty (f : DateTimeFields) : formatTime f ≠ "" := by
  apply ne_empty_of_length_pos
  have h1 : (":" : String).length = 1 := rfl
  simp only [formatTime, String.length_append, h1]
  omega

theorem formatDate_ne_empty (f : DateTimeFields) : formatDate f ≠ "" := by
  apply ne_empty_of_length_pos
  have h1 : (". " : String).length = 2 := rfl
  have h2 : ("." : String).length = 1 := rfl
  simp only [formatDate, String.length_append, h1, h2]
  omega

theorem formatDateTime_ne_empty (f : DateTimeFields) : formatDateTime f ≠ "" := by
  apply ne_empty_of_length_pos
  have h1 : (" " : String).length = 1 := rfl
  simp only [formatDateTime, String.length_append, h1]
  omega

/-! ## claim theorems -/

/-- C1 (amended): when the lowercased language is a key of the fixed
ten-entry greeting table the handler returns `<table-word>, <name>!`; when
it is neither a table key nor the name of an inherited `Object.prototype`
member, the English fallback `Hello, <name>!` is returned; but when it
names an inherited `Object.prototype` member, the truthy inherited value
bypasses the `||` fallback and its string coercion appears in the
greeting. -/
theorem greeting_table_and_fallback (name language : String) :
    (∀ w, greetings.lookup (jsToLowerCase language) = some w →
      greetingHandler name language =
        { content := [.text (w ++ ", " ++ name ++ "!")],
          structuredContent := some [("greeting", .str (w ++ ", " ++ name ++ "!"))],
          isError := false }) ∧
    (greetings.lookup (jsToLowerCase language) = none →
      objectProtoProps.lookup (jsToLowerCase language) = none →
      greetingHandler name language =
        { content := [.text ("Hello, " ++ name ++ "!")],
          structuredContent := some [("greeting", .str ("Hello, " ++ name ++ "!"))],
          isError := false }) ∧
    (∀ w, greetings.lookup (jsToLowerCase language) = none →
      objectProtoProps.lookup (jsToLowerCase language) = some w →
      greetingHandler name language =
        { content := [.text (w ++ ", " ++ name ++ "!")],
          structuredContent := some [("greeting", .str (w ++ ", " ++ name ++ "!"))],
          isError := false }) := by
  refine ⟨fun w hw => ?_, fun h1 h2 => ?_, fun w h1 h2 => ?_⟩
  · have hne := greetings_lookup_ne_empty _ _ hw
    simp [greetingHandler, jsObjectGet, jsOrElse, hw, hne]
  · have he : greetings.lookup "english" = some "Hello" := by decide
    simp [greetingHandler, jsObjectGet, jsOrElse, h1, h2, he]
  · have hne := protoProps_lookup_ne_empty _ _ h2
    simp [greetingHandler, jsObjectGet, jsOrElse, h1, h2, hne]

theorem greeting_table_and_fallback_witness :
    greetingHandler "World" "Korean" =
      { content := [.text "안녕하세요, World!"],
        structuredContent := some [("greeting", .str "안녕하세요, World!")],
        isError := false } ∧
    greetingHandler "World" "klingon" =
      { content := [.text "Hello, World!"],
        structuredContent := some [("greeting", .str "Hello, World!")],
        isError := false } ∧
    greetingHandler "World" "constructor" =
      { content := [.text "function Object() \x7b [native code] \x7d, World!"],
        structuredContent := some
          [("greeting", .str "function Object() \x7b [native code] \x7d, World!")],
        isError := false } :=
  ⟨(greeting_table_and_fallback "World" "Korean").1 "안녕하세요" (by decide),
   (greeting_table_and_fallback "World" "klingon").2.1 (by decide) (by decide),
   (greeting_table_and_fallback "World" "constructor").2.2
     "function Object() \x7b [native code] \x7d" (by decide) (by decide)⟩

/-- C1 counterexample to the claim as stated: `"constructor"` is not a key
of the greeting table, yet the handler does not return the English
fallback — the inherited `Object.prototype.constructor` is truthy and its
coercion reaches the greeting. -/
theorem greeting_prototype_counterexample :
    greetings.lookup (jsToLowerCase "constructor") = none ∧
    greetingHandler "World" "constructor" ≠
      { content := [.text "Hello, World!"],
        structuredContent := some [("greeting", .str "Hello, World!")],
        isError := false } ∧
    greetingHandler "World" "constructor" =
      { content := [.text "function Object() \x7b [native code] \x7d, World!"],
        structuredContent := some
          [("greeting", .str "function Object() \x7b [native code] \x7d, World!")],
        isError := false } :=
  ⟨by decide, by decide, by decide⟩

/-- C2: for every pair of numbers, dividing by zero returns the
error-flagged result with no structured numeric output, and dividing by a
non-zero number returns a success result (no error flag). -/
theorem calc_div_zero_error (a b : Rat) :
    (b = 0 → calcHandler a b .div =
      { content := [.text "오류: 0으로 나눌 수 없습니다"],
        structuredContent := none, isError := true }) ∧
    (b ≠ 0 → (calcHandler a b .div).isError = false ∧
      (calcHandler a b .div).structuredContent = some [("result", .num (a / b))]) := by
  constructor
  · intro hb
    simp [calcHandler, hb]
  · intro hb
    simp [calcHandler, hb, calcSuccess]

theorem calc_div_zero_error_witness :
    calcHandler 1 0 .div =
      { content := [.text "오류: 0으로 나눌 수 없습니다"],
        structuredContent := none, isError := true } ∧
    ((calcHandler 1 2 .div).isError = false ∧
      (calcHandler 1 2 .div).structuredContent = some [("result", .num (1 / 2))]) :=
  ⟨(calc_div_zero_error 1 0).1 rfl,
   (calc_div_zero_error 1 2).2 (by norm_num)⟩

/-- C6: for every pair of numbers and every operator other than division
by zero, the handler returns a success result whose numeric output is the
arithmetic value of `a op b` and whose text is `a op b = result`. -/
theorem calc_applies_operator (a b : Rat) (op : Operator)
    (h : ¬(op = .div ∧ b = 0)) :
    calcHandler a b op =
      { content := [.text (numToString a ++ " " ++ op.symbol ++ " " ++ numToString b
          ++ " = " ++ numToString (switchResult a b op))],
        structuredContent := some [("result", .num (switchResult a b op))],
        isError := false } := by
  cases op <;> simp [calcHandler, calcSuccess, switchResult]
  have hb : ¬b = 0 := fun hb => h ⟨rfl, hb⟩
  simp [hb]

theorem calc_applies_operator_witness :
    calcHandler 6 3 .times =
      { content := [.text "6 * 3 = 18"],
        structuredContent := some [("result", .num 18)],
        isError := false } := by
  have h18 : (6 * 3 : Rat) = 18 := by norm_num
  have h := calc_applies_operator 6 3 .times (by simp)
  rw [h]
  simp only [switchResult, h18]
  rfl

/-- C4: for every environment and timezone string, a recognized timezone
yields a success result carrying three non-empty formatted strings
(combined date-time, date-only, time-only), an unrecognized one yields the
error-flagged result, and exactly one of the two branches is taken. -/
theorem current_time_branches (env : ClockEnv) (tz : String) :
    (∀ f, env.tzdb tz = some f →
      currentTimeHandler env tz =
        { content := [.text ("🕐 " ++ tz ++ " 현재 시간: " ++ formatDateTime f)],
          structuredContent := some
            [("timezone", .str tz), ("datetime", .str (formatDateTime f)),
             ("date", .str (formatDate f)), ("time", .str (formatTime f))],
          isError := false } ∧
      formatDateTime f ≠ "" ∧ formatDate f ≠ "" ∧ formatTime f ≠ "") ∧
    (env.tzdb tz = none →
      currentTimeHandler env tz =
        { content := [.text ("오류: 유효하지 않은 타임존입니다 - " ++ tz)],
          structuredContent := none, isError := true }) ∧
    ((currentTimeHandler env tz).isError = false ↔ ∃ f, env.tzdb tz = some f) := by
  refine ⟨fun f hf => ⟨?_, formatDateTime_ne_empty f, formatDate_ne_empty f,
    formatTime_ne_empty f⟩, fun hn => ?_, ?_⟩
  · simp [currentTimeHandler, hf]
  · simp [currentTimeHandler, hn]
  · cases he : env.tzdb tz <;> simp [currentTimeHandler, he]

theorem current_time_branches_witness :
    currentTimeHandler utcOnlyEnv "UTC" =
      { content := [.text "🕐 UTC 현재 시간: 2025. 11. 24. 10:30:00"],
        structuredContent := some
          [("timezone", .str "UTC"), ("datetime", .str "2025. 11. 24. 10:30:00"),
           ("date", .str "2025. 11. 24."), ("time", .str "10:30:00")],
        isError := false } ∧
    currentTimeHandler utcOnlyEnv "Not/AZone" =
      { content := [.text "오류: 유효하지 않은 타임존입니다 - Not/AZone"],
        structuredContent := none, isError := true } := by
  constructor
  · have h := ((current_time_branches utcOnlyEnv "UTC").1
      ⟨2025, 11, 24, 10, 30, 0⟩ rfl).1
    rw [h]
    rfl
  · exact (current_time_branches utcOnlyEnv "Not/AZone").2.1 rfl

/-- C5: for each of the three tools with a declared `outputSchema`
(greeting, calc, current-time), every success-path result carries a
structured output whose field names and types are exactly the declared
shape. -/
theorem output_shapes_match :
    (∀ name language, ∃ o, (greetingHandler name language).structuredContent = some o ∧
      shapeOf o = greetingOutputSchema) ∧
    (∀ a b op, (calcHandler a b op).isError = false →
      ∃ o, (calcHandler a b op).structuredContent = some o ∧
        shapeOf o = calcOutputSchema) ∧
    (∀ env tz, (currentTimeHandler env tz).isError = false →
      ∃ o, (currentTimeHandler env tz).structuredContent = some o ∧
        shapeOf o = currentTimeOutputSchema) := by
  refine ⟨fun name language => ⟨_, rfl, rfl⟩, fun a b op hop => ?_, fun env tz htz => ?_⟩
  · cases op
    case plus => exact ⟨_, rfl, rfl⟩
    case minus => exact ⟨_, rfl, rfl⟩
    case times => exact ⟨_, rfl, rfl⟩
    case div =>
      by_cases hb : b = 0
      · simp [calcHandler, hb] at hop
      · refine ⟨[("result", .num (a / b))], ?_, rfl⟩
        simp [calcHandler, hb, calcSuccess]
  · cases he : env.tzdb tz
    case none => simp [currentTimeHandler, he] at htz
    case some f =>
      refine ⟨[("timezone", .str tz), ("datetime", .str (formatDateTime f)),
        ("date", .str (formatDate f)), ("time", .str (formatTime f))], ?_, rfl⟩
      simp [currentTimeHandler, he]

theorem output_shapes_match_witness :
    (∃ o, (greetingHandler "World" "english").structuredContent = some o ∧
      shapeOf o = greetingOutputSchema) ∧
    (∃ o, (calcHandler 1 2 .plus).structuredContent = some o ∧
      shapeOf o = calcOutputSchema) ∧
    (∃ o, (currentTimeHandler utcOnlyEnv "UTC").structuredContent = some o ∧
      shapeOf o = currentTimeOutputSchema) :=
  ⟨output_shapes_match.1 "World" "english",
   output_shapes_match.2.1 1 2 .plus rfl,
   output_shapes_match.2.2 utcOnlyEnv "UTC" rfl⟩

/-- C3: when the outbound call fails with an `Error` carrying `msg`, the
generate-image handler returns an error-flagged result whose text contains
`msg`. The handler is a total function of the call's outcome, so no
exception propagates past its boundary. -/
theorem generate_image_error_contains_message (api : ApiCall)
    (hfToken prompt msg : String)
    (h : api (mkHFRequest hfToken prompt) = .error (some msg)) :
    (generateImageHandler api hfToken prompt).isError = true ∧
    ∃ before after, (generateImageHandler api hfToken prompt).content =
      [.text (before ++ msg ++ after)] := by
  constructor
  · simp [generateImageHandler, h]
  · refine ⟨"이미지 생성 오류: ", "", ?_⟩
    simp [generateImageHandler, h]

theorem generate_image_error_contains_message_witness :
    (generateImageHandler failingApi "tok" "a cat").isError = true ∧
    ∃ before after, (generateImageHandler failingApi "tok" "a cat").content =
      [.text (before ++ "network down" ++ after)] :=
  generate_image_error_contains_message failingApi "tok" "a cat" "network down" rfl

/-- C7: the one outbound request carries the fixed model identifier, the
fixed inference-step count 5 and the configured credential; the result
depends on the outbound call only through its answer to that single
request; and on success the handler returns one image content item holding
the base64 encoding of the returned bytes. -/
theorem generate_image_request_fixed (api : ApiCall) (hfToken prompt : String) :
    mkHFRequest hfToken prompt =
      { token := hfToken, provider := "auto",
        model := "black-forest-labs/FLUX.1-schnell", inputs := prompt, num := 5 } ∧
    (∀ api2 : ApiCall, api2 (mkHFRequest hfToken prompt) = api (mkHFRequest hfToken prompt) →
      generateImageHandler api2 hfToken prompt = generateImageHandler api hfToken prompt) ∧
    (∀ bytes, api (mkHFRequest hfToken prompt) = .ok bytes →
      generateImageHandler api hfToken prompt =
        { content := [.image (base64Encode bytes) "image/png"
            { audience := ["user"], priority := 9/10 }],
          structuredContent := none, isError := false }) := by
  refine ⟨rfl, fun api2 h2 => ?_, fun bytes hb => ?_⟩
  · simp [generateImageHandler, h2]
  · simp [generateImageHandler, hb]

theorem generate_image_request_fixed_witness :
    generateImageHandler okApi "tok" "a cat" =
      { content := [.image "AQID" "image/png" { audience := ["user"], priority := 9/10 }],
        structuredContent := none, isError := false } := by
  have h := (generate_image_request_fixed okApi "tok" "a cat").2.2 [1, 2, 3] rfl
  rw [h]
  rfl

/-- C8: every successful generate-image result labels its single image
content item with mimeType `image/png`, whatever bytes the external
service returned. -/
theorem generate_image_mime_png (api : ApiCall) (hfToken prompt : String)
    (bytes : List Nat) (h : api (mkHFRequest hfToken prompt) = .ok bytes) :
    ∃ data annots, (generateImageHandler api hfToken prompt).content =
      [.image data "image/png" annots] :=
  ⟨base64Encode bytes, { audience := ["user"], priority := 9/10 },
    by simp [generateImageHandler, h]⟩

theorem generate_image_mime_png_witness :
    ∃ data annots, (generateImageHandler okApi "tok" "a dog").content =
      [.image data "image/png" annots] :=
  generate_image_mime_png okApi "tok" "a dog" [1, 2, 3] rfl

/-- C9: the server-info resource returns the hardcoded JSON document for
every request URI; the document itself is a fixed constant and varies with
nothing. -/
theorem server_info_fixed (uriHref : String) :
    serverInfoHandler uriHref =
      [{ uri := uriHref, mimeType := "application/json", text := serverInfoJson }] ∧
    (serverInfoHandler uriHref).map ResourceContent.text = [serverInfoJson] :=
  ⟨rfl, rfl⟩

/-- C10 (amended): the code_review prompt returns one user message that is
the fixed review template with the code snippet interpolated verbatim; the
sentence naming the language is present exactly when a non-empty language
is supplied — an absent or empty language (falsy in JavaScript) omits
it. -/
theorem code_review_template (code : String) (language : Option String) :
    codeReviewHandler code language =
      [{ role := "user",
         text := codeReviewHead ++ langInfoOf language ++ codeReviewMid ++ code
           ++ codeReviewTail }] ∧
    (∀ l, language = some l → l ≠ "" →
      (codeReviewHandler code language).map PromptMessage.text =
        [codeReviewHead ++ ("이 코드는 " ++ l ++ "로 작성되었습니다.\n\n") ++
          (codeReviewMid ++ code ++ codeReviewTail)]) ∧
    (language = none ∨ language = some "" →
      (codeReviewHandler code language).map PromptMessage.text =
        [codeReviewHead ++ codeReviewMid ++ code ++ codeReviewTail]) ∧
    (∃ before after, (codeReviewHandler code language).map PromptMessage.text =
      [before ++ code ++ after]) := by
  refine ⟨rfl, fun l hl hne => ?_, fun hn => ?_, ?_⟩
  · subst hl
    simp [codeReviewHandler, langInfoOf, hne, String.append_assoc]
  · cases hn with
    | inl h => subst h; simp [codeReviewHandler, langInfoOf]
    | inr h => subst h; simp [codeReviewHandler, langInfoOf]
  · exact ⟨codeReviewHead ++ langInfoOf language ++ codeReviewMid, codeReviewTail,
      by simp [codeReviewHandler]⟩

theorem code_review_template_witness :
    (codeReviewHandler "let x = 1" (some "typescript")).map PromptMessage.text =
      [codeReviewHead ++ ("이 코드는 " ++ "typescript" ++ "로 작성되었습니다.\n\n") ++
        (codeReviewMid ++ "let x = 1" ++ codeReviewTail)] ∧
    (codeReviewHandler "let x = 1" none).map PromptMessage.text =
      [codeReviewHead ++ codeReviewMid ++ "let x = 1" ++ codeReviewTail] ∧
    (codeReviewHandler "let x = 1" (some "")).map PromptMessage.text =
      [codeReviewHead ++ codeReviewMid ++ "let x = 1" ++ codeReviewTail] :=
  ⟨(code_review_template "let x = 1" (some "typescript")).2.1 "typescript" rfl
     (by decide),
   (code_review_template "let x = 1" none).2.2.1 (Or.inl rfl),
   (code_review_template "let x = 1" (some "")).2.2.1 (Or.inr rfl)⟩

set_option maxRecDepth 8192 in
/-- C10 counterexample to the claim as stated: at the supplied but empty
language `some ""` (falsy in JavaScript), the sentence is omitted, so the
output differs from the template with the empty-named sentence
inserted. -/
theorem code_review_empty_language_counterexample :
    (codeReviewHandler "x" (some "")).map PromptMessage.text =
      [codeReviewHead ++ codeReviewMid ++ "x" ++ codeReviewTail] ∧
    (codeReviewHandler "x" (some "")).map PromptMessage.text ≠
      [codeReviewHead ++ ("이 코드는 " ++ "" ++ "로 작성되었습니다.\n\n") ++
        (codeReviewMid ++ "x" ++ codeReviewTail)] :=
  ⟨by decide, by decide⟩

end McpServer
